import Mathlib

/-!
# Verification of the Sync Orchestration Engine (cursor-blueprint-enforcer GUI)

Shallow embedding of the orchestration logic of `scripts/sync_gui.py` and
`scripts/simple_gui.py`:

* `run_command` (sync_gui.py lines 116-140, simple_gui.py lines 97-132) is
  modelled by `runCommandSync` / `runCommandSimple`.  The behaviour of the
  spawned process is an oracle `system : SubprocessCall → ProcBehavior`; the
  oracle receives exactly the argument record that the Python code passes to
  `subprocess.run`, so the fixed timeout constants are part of the model.
* The per-action background threads (`sync_cursor` lines 153-171,
  `sync_everything` lines 185-216, `export_config` lines 230-258,
  `test_integrations` lines 272-301) are modelled as pure state-passing
  functions.  `os.path.exists` reads from a `LocalState` record; the opaque
  filesystem effect of each executed external command is an oracle
  `eff : Step → LocalState → LocalState` (the effect of a command is taken to
  be a function of the command; string `strip` normalisation of captured
  output is modelled as the identity).
* Python `try`/`finally` is modelled by the combinator `tryFin`, which
  runs the `finally` continuation both on normal completion of the body and
  when an exception escapes the body.
-/

/-- A named external operation: the command string handed to `subprocess.run`
plus the human-readable description used in log lines and result reporting. -/
structure Step where
  command : String
  description : String
  deriving Repr, DecidableEq

/-- Snapshot of the three `os.path.exists` markers the scripts consult. -/
structure LocalState where
  cursorConfig : Bool        -- os.path.exists("cursor-config")
  machineSyncConfig : Bool   -- os.path.exists("machine-sync-config.json")
  toolSyncConfig : Bool      -- os.path.exists("tool-sync-config.json")
  deriving Repr, DecidableEq

/-- What a spawned process does, as observed by `subprocess.run`:
exit with a code and captured output, exceed the timeout (with whatever
output had been captured up to that point), or raise some other exception
while launching or waiting. -/
inductive ProcBehavior
  | exits (returncode : Int) (stdout stderr : String)
  | timesOut (stdoutSoFar stderrSoFar : String)
  | raises (msg : String)
  deriving Repr, DecidableEq

/-- The argument record the Python code passes to `subprocess.run`. -/
structure SubprocessCall where
  command : String
  shell : Bool
  captureOutput : Bool
  timeout : Nat
  deriving Repr, DecidableEq

/-- sync_gui.py line 120-121: `subprocess.run(command, shell=True,
capture_output=True, text=True, timeout=300)`. -/
def syncGuiCall (command : String) : SubprocessCall :=
  { command := command, shell := true, captureOutput := true, timeout := 300 }

/-- simple_gui.py lines 102-109: `subprocess.run(command, shell=True,
capture_output=True, encoding='utf-8', errors='replace', timeout=60)`. -/
def simpleGuiCall (command : String) : SubprocessCall :=
  { command := command, shell := true, captureOutput := true, timeout := 60 }

/-- Python exceptions relevant to `run_command`'s `except` clauses. -/
inductive PyExn
  | timeoutExpired (stdoutSoFar stderrSoFar : String)
  | other (msg : String)
  deriving Repr, DecidableEq

/-- `subprocess.run`: returns the completed process (returncode, stdout,
stderr) or raises. -/
def subprocessRun (system : SubprocessCall → ProcBehavior) (call : SubprocessCall) :
    Except PyExn (Int × String × String) :=
  match system call with
  | .exits c out err => .ok (c, out, err)
  | .timesOut po pe => .error (.timeoutExpired po pe)
  | .raises msg => .error (.other msg)

/-- The `try` block of sync_gui.py `run_command` (lines 119-133): call
`subprocess.run`, log non-empty stdout/stderr, and return `True` exactly when
the return code is zero.  An exception from `subprocess.run` propagates out
of the block as `.error`.  The returned list is the log lines appended by the
block. -/
def runCommandSyncTry (system : SubprocessCall → ProcBehavior)
    (command description : String) : Except PyExn (Bool × List String) :=
  match subprocessRun system (syncGuiCall command) with
  | .error e => .error e
  | .ok (code, out, err) =>
    let outLog := if out ≠ "" then ["Output: " ++ out] else []
    let errLog := if err ≠ "" then ["Error: " ++ err] else []
    if code = 0 then
      .ok (true, outLog ++ errLog ++ ["✅ " ++ description ++ " completed successfully"])
    else
      .ok (false, outLog ++ errLog ++
        ["❌ " ++ description ++ " failed with code " ++ toString code])

/-- sync_gui.py `run_command` (lines 116-140): logs `Running: <description>`,
runs the `try` block, and catches `subprocess.TimeoutExpired` (line 135) and
every other `Exception` (line 138), converting each to a `False` return with
a distinctive log line.  Note that the `TimeoutExpired` handler ignores the
output captured before the timeout. -/
def runCommandSync (system : SubprocessCall → ProcBehavior)
    (command description : String) : Bool × List String :=
  let log0 := ["Running: " ++ description]
  match runCommandSyncTry system command description with
  | .ok (b, tryLog) => (b, log0 ++ tryLog)
  | .error (.timeoutExpired _ _) =>
      (false, log0 ++ ["⏰ " ++ description ++ " timed out"])
  | .error (.other msg) =>
      (false, log0 ++ ["💥 " ++ description ++ " failed: " ++ msg])

/-- The `try` block of simple_gui.py `run_command` (lines 100-125): identical
control flow to the sync_gui variant but issued with `simpleGuiCall`
(timeout 60); stdout/stderr are logged when non-empty after stripping
(strip modelled as the identity). -/
def runCommandSimpleTry (system : SubprocessCall → ProcBehavior)
    (command description : String) : Except PyExn (Bool × List String) :=
  match subprocessRun system (simpleGuiCall command) with
  | .error e => .error e
  | .ok (code, out, err) =>
    let outLog := if out ≠ "" then ["Output: " ++ out] else []
    let errLog := if err ≠ "" then ["Error: " ++ err] else []
    if code = 0 then
      .ok (true, outLog ++ errLog ++ ["✅ " ++ description ++ " completed successfully"])
    else
      .ok (false, outLog ++ errLog ++
        ["❌ " ++ description ++ " failed with code " ++ toString code])

/-- simple_gui.py `run_command` (lines 97-132), with the same `except`
structure as the sync_gui variant. -/
def runCommandSimple (system : SubprocessCall → ProcBehavior)
    (command description : String) : Bool × List String :=
  let log0 := ["Running: " ++ description]
  match runCommandSimpleTry system command description with
  | .ok (b, tryLog) => (b, log0 ++ tryLog)
  | .error (.timeoutExpired _ _) =>
      (false, log0 ++ ["⏰ " ++ description ++ " timed out"])
  | .error (.other msg) =>
      (false, log0 ++ ["💥 " ++ description ++ " failed: " ++ msg])

/-- The boolean outcome a step obtains when run through sync_gui's
`run_command` against a given system oracle. -/
def stepOutcomeSync (system : SubprocessCall → ProcBehavior) (st : Step) : Bool :=
  (runCommandSync system st.command st.description).1

example :
    runCommandSync (fun _ => .exits 0 "ok" "") "npm test" "Run project tests"
      = (true, ["Running: Run project tests", "Output: ok",
                "✅ Run project tests completed successfully"]) := by decide

example :
    runCommandSync (fun _ => .timesOut "half" "") "c" "d"
      = (false, ["Running: d", "⏰ d timed out"]) := by decide

/-! ## The steps appearing in the scripts' flows -/

def importCursorStep : Step :=
  ⟨"npm run sync-cursor import", "Import Cursor configuration"⟩

def exportCursorStep : Step :=
  ⟨"npm run sync-cursor export", "Export Cursor configuration"⟩

def syncMachinesStep : Step :=
  ⟨"npm run sync-machines", "Sync machine configuration"⟩

def syncToolsStep : Step :=
  ⟨"npm run sync-tools", "Sync tool configuration"⟩

def generateSummaryStep : Step :=
  ⟨"npm run generate-summary", "Generate project summary"⟩

/-- export_config runs the same commands under "Generate ..." descriptions
(sync_gui.py lines 239 and 243). -/
def genMachinesStep : Step :=
  ⟨"npm run sync-machines", "Generate machine sync configuration"⟩

def genToolsStep : Step :=
  ⟨"npm run sync-tools", "Generate tool sync configuration"⟩

/-! ## The per-action background-thread bodies

Each thread body is a straight-line sequence of `os.path.exists` checks and
`run_command` calls accumulating `success` with Python's `&=` (bitwise and on
booleans, which always evaluates its right operand — no short-circuit).  The
accumulator records the executed steps, the running `success` value, and the
evolving local filesystem state. -/

structure RunAcc where
  executed : List Step
  success : Bool
  fs : LocalState
  deriving Repr, DecidableEq

/-- One `success &= self.run_command(...)` statement: the step's outcome is
consulted (Python `&=` evaluates its operand unconditionally), the step is
recorded as executed, and its opaque filesystem effect is applied. -/
def execStep (eff : Step → LocalState → LocalState) (outcome : Step → Bool)
    (st : Step) (a : RunAcc) : RunAcc :=
  { executed := a.executed ++ [st],
    success := a.success && outcome st,
    fs := eff st a.fs }

/-- Thread body of `sync_cursor` (sync_gui.py lines 155-159): one cursor step,
chosen by the cursor-config marker. -/
def syncCursorRun (eff : Step → LocalState → LocalState) (outcome : Step → Bool)
    (s : LocalState) : RunAcc :=
  let a0 : RunAcc := { executed := [], success := true, fs := s }
  if a0.fs.cursorConfig then execStep eff outcome importCursorStep a0
  else execStep eff outcome exportCursorStep a0

/-- Thread body of `sync_everything` (sync_gui.py lines 187-204).  Each
`os.path.exists` reads the filesystem state as it stands at that point of the
run (after the effects of the steps already executed), exactly as the code
interleaves the checks with the `run_command` calls. -/
def syncEverythingRun (eff : Step → LocalState → LocalState)
    (outcome : Step → Bool) (s : LocalState) : RunAcc :=
  let a0 : RunAcc := { executed := [], success := true, fs := s }
  -- lines 190-193: cursor-config check, then import or export
  let a1 := if a0.fs.cursorConfig then execStep eff outcome importCursorStep a0
            else execStep eff outcome exportCursorStep a0
  -- lines 196-197: machine-sync-config.json check
  let a2 := if a1.fs.machineSyncConfig then execStep eff outcome syncMachinesStep a1 else a1
  -- lines 200-201: tool-sync-config.json check
  let a3 := if a2.fs.toolSyncConfig then execStep eff outcome syncToolsStep a2 else a2
  -- line 204: unconditional summary
  execStep eff outcome generateSummaryStep a3

/-- Thread body of `export_config` (sync_gui.py lines 232-246): export
unconditionally, then generate each sync config only when its marker is
absent at check time, then the unconditional summary. -/
def exportConfigRun (eff : Step → LocalState → LocalState)
    (outcome : Step → Bool) (s : LocalState) : RunAcc :=
  let a0 : RunAcc := { executed := [], success := true, fs := s }
  let a1 := execStep eff outcome exportCursorStep a0
  let a2 := if a1.fs.machineSyncConfig then a1 else execStep eff outcome genMachinesStep a1
  let a3 := if a2.fs.toolSyncConfig then a2 else execStep eff outcome genToolsStep a2
  execStep eff outcome generateSummaryStep a3

/-- The integration table of `test_integrations` (sync_gui.py lines 274-280),
in configuration order. -/
def integrations : List (String × String) :=
  [("Google Workspace", "npm run google:health"),
   ("MindPal", "npm run mindpal:health"),
   ("DeerFlow", "npm run deerflow:health"),
   ("Render", "npm run render:health"),
   ("Make.com", "npm run make:health")]

/-- The step run for one integration entry: `run_command(command, "Test " + name)`
with the literal text `Test <name>` (sync_gui.py line 285). -/
def testStep (p : String × String) : Step :=
  ⟨p.2, "Test " ++ p.1⟩

/-- The `results` list built by the loop of `test_integrations`
(sync_gui.py lines 282-286): one `(name, success)` pair appended per entry. -/
def testIntegrationsResults (outcome : Step → Bool) : List (String × Bool) :=
  integrations.foldl (fun results p => results ++ [(p.1, outcome (testStep p))]) []

/-- `failed = [name for name, success in results if not success]`
(sync_gui.py line 289). -/
def testIntegrationsFailed (outcome : Step → Bool) : List String :=
  ((testIntegrationsResults outcome).filter (fun r => !r.2)).map Prod.fst

/-! ## GUI state, dialogs, try/finally and the handlers -/

/-- The mutable widget/guard state a handler touches. -/
structure GuiState where
  syncInProgress : Bool
  statusText : String
  progressRunning : Bool
  buttonDisabled : Bool
  deriving Repr, DecidableEq

/-- A messagebox call. -/
inductive Dialog
  | info (title message : String)
  | error (title message : String)
  | warning (title message : String)
  deriving Repr, DecidableEq

/-- The rejection dialog every handler shows when `sync_in_progress` is set
(e.g. sync_gui.py lines 144-146, 176-178). -/
def alreadyRunningWarning : Dialog :=
  .warning "Sync in Progress" "Please wait for current sync to complete."

/-- State threaded through a background thread: the widget state plus the
dialogs shown and steps executed so far. -/
structure ThreadState where
  gui : GuiState
  dialogs : List Dialog
  executed : List Step
  deriving Repr, DecidableEq

/-- Python `try`/`finally`: run the body; whether it completes normally
(`.ok`) or an exception escapes it (`.error`), the `finally` continuation
runs on the state as the body left it, and the body's verdict is passed on. -/
def tryFin {σ α : Type} (body : σ → σ × Except String α)
    (fin : σ → σ) (st : σ) : σ × Except String α :=
  let r := body st
  (fin r.1, r.2)

/-- The `finally` block of `sync_everything` (sync_gui.py lines 211-215):
clear the guard, re-enable the button, stop the progress bar, reset the
status text. -/
def syncAllFinallyT (t : ThreadState) : ThreadState :=
  { t with gui := { t.gui with
      syncInProgress := false
      buttonDisabled := false
      progressRunning := false
      statusText := "Ready to sync" } }

/-- The `finally` block of `sync_cursor` (sync_gui.py lines 166-170); the
same four statements. -/
def syncCursorFinallyT (t : ThreadState) : ThreadState :=
  { t with gui := { t.gui with
      syncInProgress := false
      buttonDisabled := false
      progressRunning := false
      statusText := "Ready to sync" } }

/-- The `try` body of `sync_everything`'s thread (sync_gui.py lines 186-209):
run the steps, then show the success/failure dialog chosen by the aggregated
boolean alone. -/
def syncAllBody (eff : Step → LocalState → LocalState) (outcome : Step → Bool)
    (s : LocalState) (t : ThreadState) : ThreadState × Except String Unit :=
  let a := syncEverythingRun eff outcome s
  let d := if a.success then Dialog.info "Success" "Everything synced successfully!"
           else Dialog.error "Error" "Some sync operations failed. Check the log for details."
  ({ t with dialogs := t.dialogs ++ [d], executed := t.executed ++ a.executed }, .ok ())

/-- The `try` body of `sync_cursor`'s thread (sync_gui.py lines 154-164). -/
def syncCursorBody (eff : Step → LocalState → LocalState) (outcome : Step → Bool)
    (s : LocalState) (t : ThreadState) : ThreadState × Except String Unit :=
  let a := syncCursorRun eff outcome s
  let d := if a.success then Dialog.info "Success" "Cursor configuration synced successfully!"
           else Dialog.error "Error" "Failed to sync Cursor configuration. Check the log for details."
  ({ t with dialogs := t.dialogs ++ [d], executed := t.executed ++ a.executed }, .ok ())

/-- The observable result of one button-handler invocation. -/
structure HandlerResult where
  rejected : Bool
  dialogs : List Dialog
  executed : List Step
  state : GuiState
  deriving Repr, DecidableEq

/-- The `sync_everything` handler (sync_gui.py lines 174-217): reject when the
guard is set (lines 176-178, no work, no state change); otherwise set the
guard and widget state (lines 180-183) and run the thread under
`try`/`finally`.  The handler and its thread are composed sequentially here;
the check-and-set itself happens on the single Tk event thread before the
worker is spawned, so it is atomic with respect to other submissions. -/
def syncEverythingHandler (eff : Step → LocalState → LocalState)
    (outcome : Step → Bool) (s : LocalState) (g : GuiState) : HandlerResult :=
  if g.syncInProgress then
    { rejected := true, dialogs := [alreadyRunningWarning], executed := [], state := g }
  else
    let g1 : GuiState := { g with
      syncInProgress := true
      buttonDisabled := true
      progressRunning := true
      statusText := "Syncing everything..." }
    let t := tryFin (syncAllBody eff outcome s) syncAllFinallyT
      { gui := g1, dialogs := [], executed := [] }
    { rejected := false, dialogs := t.1.dialogs, executed := t.1.executed, state := t.1.gui }

/-- The `sync_cursor` handler (sync_gui.py lines 142-172), same guard pattern. -/
def syncCursorHandler (eff : Step → LocalState → LocalState)
    (outcome : Step → Bool) (s : LocalState) (g : GuiState) : HandlerResult :=
  if g.syncInProgress then
    { rejected := true, dialogs := [alreadyRunningWarning], executed := [], state := g }
  else
    let g1 : GuiState := { g with
      syncInProgress := true
      buttonDisabled := true
      progressRunning := true
      statusText := "Syncing Cursor configuration..." }
    let t := tryFin (syncCursorBody eff outcome s) syncCursorFinallyT
      { gui := g1, dialogs := [], executed := [] }
    { rejected := false, dialogs := t.1.dialogs, executed := t.1.executed, state := t.1.gui }

/-- The `try` body of `export_config`'s thread (sync_gui.py lines 231-251):
run the export-all steps, then show the success/failure dialog chosen by the
aggregated boolean alone. -/
def exportConfigBody (eff : Step → LocalState → LocalState) (outcome : Step → Bool)
    (s : LocalState) (t : ThreadState) : ThreadState × Except String Unit :=
  let a := exportConfigRun eff outcome s
  let d := if a.success then Dialog.info "Success" "Configuration exported successfully!"
           else Dialog.error "Error" "Some export operations failed. Check the log for details."
  ({ t with dialogs := t.dialogs ++ [d], executed := t.executed ++ a.executed }, .ok ())

/-- The `finally` block of `export_config` (sync_gui.py lines 253-257); the
same four statements as the other handlers. -/
def exportConfigFinallyT (t : ThreadState) : ThreadState :=
  { t with gui := { t.gui with
      syncInProgress := false
      buttonDisabled := false
      progressRunning := false
      statusText := "Ready to sync" } }

/-- The `export_config` handler (sync_gui.py lines 219-259), same guard
pattern as the other handlers; status text from line 228. -/
def exportConfigHandler (eff : Step → LocalState → LocalState)
    (outcome : Step → Bool) (s : LocalState) (g : GuiState) : HandlerResult :=
  if g.syncInProgress then
    { rejected := true, dialogs := [alreadyRunningWarning], executed := [], state := g }
  else
    let g1 : GuiState := { g with
      syncInProgress := true
      buttonDisabled := true
      progressRunning := true
      statusText := "Exporting configuration..." }
    let t := tryFin (exportConfigBody eff outcome s) exportConfigFinallyT
      { gui := g1, dialogs := [], executed := [] }
    { rejected := false, dialogs := t.1.dialogs, executed := t.1.executed, state := t.1.gui }

/-- The terminal dialog of `test_integrations` (sync_gui.py lines 289-294):
a warning naming the failed integrations when any failed, otherwise the
fixed success message. -/
def testIntegrationsDialog (outcome : Step → Bool) : Dialog :=
  if testIntegrationsFailed outcome ≠ [] then
    .warning "Test Results"
      ("Some integrations failed:\n" ++
        String.intercalate ", " (testIntegrationsFailed outcome) ++
        "\n\nCheck the log for details.")
  else .info "Test Results" "All integrations working correctly!"

/-! ## Spec-level definitions (for refinement claims)

These two follow the wording of the specification's Plan Builder table
(spec section 4.2), to be compared with the step lists the code executes. -/

/-- Modelled from the spec's action table: the plan for `sync-everything`
as a function of the snapshot alone. -/
def specPlanSyncEverything (s : LocalState) : List Step :=
  (if s.cursorConfig then [importCursorStep] else [exportCursorStep])
    ++ (if s.machineSyncConfig then [syncMachinesStep] else [])
    ++ (if s.toolSyncConfig then [syncToolsStep] else [])
    ++ [generateSummaryStep]

/-- Modelled from the spec's action table: the plan for `export-all`
as a function of the snapshot alone. -/
def specPlanExportAll (s : LocalState) : List Step :=
  [exportCursorStep]
    ++ (if s.machineSyncConfig then [] else [genMachinesStep])
    ++ (if s.toolSyncConfig then [] else [genToolsStep])
    ++ [generateSummaryStep]

/-- Modelled from the spec's action table: the plan for `sync-single-config`. -/
def specPlanSyncCursor (s : LocalState) : List Step :=
  if s.cursorConfig then [importCursorStep] else [exportCursorStep]

/-- The names of the failed steps of a run, in step order. -/
def failedStepNames (a : RunAcc) (outcome : Step → Bool) : List String :=
  (a.executed.filter (fun st => !outcome st)).map Step.description


/-! ## Helper lemmas -/

lemma foldl_append_singleton {α β : Type} (f : α → β) (l : List α) (acc : List β) :
    l.foldl (fun r a => r ++ [f a]) acc = acc ++ l.map f := by
  induction l generalizing acc with
  | nil => simp
  | cons a l ih => simp [ih]

lemma testIntegrationsResults_eq (o : Step → Bool) :
    testIntegrationsResults o = integrations.map (fun p => (p.1, o (testStep p))) := by
  simpa [testIntegrationsResults] using
    foldl_append_singleton (fun p => (p.1, o (testStep p))) integrations []

lemma filter_map_comm {α β : Type} (f : α → β) (q : β → Bool) (l : List α) :
    (l.map f).filter q = (l.filter (fun a => q (f a))).map f := by
  induction l with
  | nil => rfl
  | cons a l ih => by_cases h : q (f a) <;> simp [List.filter_cons, h, ih]

lemma syncEverythingRun_executed_indep (eff : Step → LocalState → LocalState)
    (s : LocalState) (o1 o2 : Step → Bool) :
    (syncEverythingRun eff o1 s).executed = (syncEverythingRun eff o2 s).executed := by
  rcases s with ⟨c, m, t⟩
  cases c <;> simp [syncEverythingRun, execStep] <;> split <;> split <;> rfl

lemma exportConfigRun_executed_indep (eff : Step → LocalState → LocalState)
    (s : LocalState) (o1 o2 : Step → Bool) :
    (exportConfigRun eff o1 s).executed = (exportConfigRun eff o2 s).executed := by
  rcases s with ⟨c, m, t⟩
  simp only [exportConfigRun, execStep]
  split <;> split <;> rfl

lemma syncEverythingRun_success_all (eff : Step → LocalState → LocalState)
    (o : Step → Bool) (s : LocalState) :
    (syncEverythingRun eff o s).success = (syncEverythingRun eff o s).executed.all o := by
  rcases s with ⟨c, m, t⟩
  cases c <;> simp [syncEverythingRun, execStep] <;> split <;> split <;>
    simp [List.all_cons, Bool.and_assoc]

lemma exportConfigRun_success_all (eff : Step → LocalState → LocalState)
    (o : Step → Bool) (s : LocalState) :
    (exportConfigRun eff o s).success = (exportConfigRun eff o s).executed.all o := by
  rcases s with ⟨c, m, t⟩
  simp only [exportConfigRun, execStep]
  split <;> split <;> simp [List.all_cons, Bool.and_assoc]

lemma syncEverythingRun_executed_plan (eff : Step → LocalState → LocalState)
    (o : Step → Bool) (s : LocalState)
    (hm : ∀ st ls, (eff st ls).machineSyncConfig = ls.machineSyncConfig)
    (ht : ∀ st ls, (eff st ls).toolSyncConfig = ls.toolSyncConfig) :
    (syncEverythingRun eff o s).executed = specPlanSyncEverything s := by
  rcases s with ⟨c, m, t⟩
  cases c <;> cases m <;> cases t <;>
    simp [syncEverythingRun, execStep, specPlanSyncEverything, hm, ht]

lemma exportConfigRun_executed_plan (eff : Step → LocalState → LocalState)
    (o : Step → Bool) (s : LocalState)
    (hm : ∀ st ls, (eff st ls).machineSyncConfig = ls.machineSyncConfig)
    (ht : ∀ st ls, (eff st ls).toolSyncConfig = ls.toolSyncConfig) :
    (exportConfigRun eff o s).executed = specPlanExportAll s := by
  rcases s with ⟨c, m, t⟩
  cases m <;> cases t <;>
    simp [exportConfigRun, execStep, specPlanExportAll, hm, ht]

lemma syncCursorRun_executed_plan (eff : Step → LocalState → LocalState)
    (o : Step → Bool) (s : LocalState) :
    (syncCursorRun eff o s).executed = specPlanSyncCursor s := by
  rcases s with ⟨c, m, t⟩
  cases c <;> simp [syncCursorRun, execStep, specPlanSyncCursor]

/-! ## Concrete fixtures used by witnesses and counterexamples -/

/-- The identity effect oracle: external commands leave the three markers
unchanged. -/
def effId : Step → LocalState → LocalState := fun _ ls => ls

/-- A GUI state in which a run currently holds the guard. -/
def busyGui : GuiState :=
  { syncInProgress := true, statusText := "Syncing everything...",
    progressRunning := true, buttonDisabled := true }

/-- The idle GUI state. -/
def idleGui : GuiState :=
  { syncInProgress := false, statusText := "Ready to sync",
    progressRunning := false, buttonDisabled := false }

/-- A thread body that terminates via an unexpected internal fault. -/
def faultingBody : ThreadState → ThreadState × Except String Unit :=
  fun t => (t, .error "unexpected internal fault")

/-- Effect oracle under which the cursor-export command creates the
machine-sync-config.json marker. -/
def effExportCreatesMachineMarker : Step → LocalState → LocalState :=
  fun st ls =>
    if st = exportCursorStep then { ls with machineSyncConfig := true } else ls

/-- Outcome oracle: exactly the import-cursor step fails. -/
def outcomeFailingImport : Step → Bool := fun st => !(st == importCursorStep)

/-- Outcome oracle: exactly the generate-summary step fails. -/
def outcomeFailingSummary : Step → Bool := fun st => !(st == generateSummaryStep)

/-- A system oracle whose every process exceeds its timeout after producing
some output. -/
def sysTimesOutWithOutput : SubprocessCall → ProcBehavior :=
  fun _ => .timesOut "stdout captured before the timeout" "stderr captured before the timeout"

/-- A system oracle whose every process exceeds its timeout having produced
no output at all. -/
def sysTimesOutSilent : SubprocessCall → ProcBehavior := fun _ => .timesOut "" ""

/-! ## Claims -/

/-- C1: For every Plan, every Step in the Plan is executed even when an earlier
Step failed (no short-circuiting) — the executed step list of `sync_everything`
and `export_config` does not depend on the outcomes, and every configured
integration is tested regardless of earlier failures — and the run's aggregate
result is success iff every executed Step's outcome succeeded (the aggregate
boolean is the AND over the executed steps; for `test_integrations` the failed
list is empty iff all outcomes succeeded), otherwise the run reports partial
failure. -/
theorem C1_do_all_then_and (eff : Step → LocalState → LocalState)
    (s : LocalState) (o o2 : Step → Bool) :
    (syncEverythingRun eff o s).executed = (syncEverythingRun eff o2 s).executed
    ∧ (syncEverythingRun eff o s).success = (syncEverythingRun eff o s).executed.all o
    ∧ (exportConfigRun eff o s).executed = (exportConfigRun eff o2 s).executed
    ∧ (exportConfigRun eff o s).success = (exportConfigRun eff o s).executed.all o
    ∧ (testIntegrationsResults o).map Prod.fst = integrations.map Prod.fst
    ∧ (testIntegrationsFailed o = [] ↔ (testIntegrationsResults o).all (fun r => r.2) = true) := by
  refine ⟨syncEverythingRun_executed_indep eff s o o2,
    syncEverythingRun_success_all eff o s,
    exportConfigRun_executed_indep eff s o o2,
    exportConfigRun_success_all eff o s, ?_, ?_⟩
  · rw [testIntegrationsResults_eq, List.map_map]
    rfl
  · rw [testIntegrationsFailed, testIntegrationsResults_eq]
    simp [List.filter_eq_nil_iff, List.all_eq_true]

/-- C2: Every submit request arriving while the in_progress guard is true is
rejected with the AlreadyRunning warning; no step is executed and the GUI
state is left exactly as it was, so a second Plan is never started while one
is running. -/
theorem C2_already_running_rejected (eff : Step → LocalState → LocalState)
    (o : Step → Bool) (s : LocalState) (g : GuiState)
    (hg : g.syncInProgress = true) :
    syncEverythingHandler eff o s g
      = { rejected := true, dialogs := [alreadyRunningWarning], executed := [], state := g }
    ∧ syncCursorHandler eff o s g
      = { rejected := true, dialogs := [alreadyRunningWarning], executed := [], state := g } := by
  constructor <;> simp [syncEverythingHandler, syncCursorHandler, hg]

theorem C2_already_running_rejected_witness :
    busyGui.syncInProgress = true
    ∧ (syncEverythingHandler effId (fun _ => true) ⟨true, false, false⟩ busyGui
        = { rejected := true, dialogs := [alreadyRunningWarning], executed := [], state := busyGui }
      ∧ syncCursorHandler effId (fun _ => true) ⟨true, false, false⟩ busyGui
        = { rejected := true, dialogs := [alreadyRunningWarning], executed := [], state := busyGui }) :=
  ⟨rfl, C2_already_running_rejected effId (fun _ => true) ⟨true, false, false⟩ busyGui rfl⟩

/-- C3: For every admitted run the guard is reset to false on every exit path:
whatever the thread body does — including terminating via an unexpected
internal fault — the `finally` continuation leaves `sync_in_progress` false,
the admitted handler paths end with the guard cleared, and a new submission
observed after the run terminated is admitted (not rejected). -/
theorem C3_guard_released_on_every_exit
    (body : ThreadState → ThreadState × Except String Unit) (t : ThreadState)
    (eff : Step → LocalState → LocalState) (o : Step → Bool) (s : LocalState)
    (g : GuiState) (hg : g.syncInProgress = false) :
    (tryFin body syncAllFinallyT t).1.gui.syncInProgress = false
    ∧ (tryFin body syncCursorFinallyT t).1.gui.syncInProgress = false
    ∧ (syncEverythingHandler eff o s g).state.syncInProgress = false
    ∧ (syncCursorHandler eff o s g).state.syncInProgress = false
    ∧ (syncEverythingHandler eff o s (tryFin body syncAllFinallyT t).1.gui).rejected = false := by
  refine ⟨rfl, rfl, ?_, ?_, ?_⟩ <;>
    simp [syncEverythingHandler, syncCursorHandler, hg, tryFin,
      syncAllFinallyT, syncCursorFinallyT]

theorem C3_guard_released_on_every_exit_witness :
    idleGui.syncInProgress = false
    ∧ ((tryFin faultingBody syncAllFinallyT ⟨busyGui, [], []⟩).1.gui.syncInProgress = false
      ∧ (tryFin faultingBody syncCursorFinallyT ⟨busyGui, [], []⟩).1.gui.syncInProgress = false
      ∧ (syncEverythingHandler effId (fun _ => true) ⟨true, false, false⟩ idleGui).state.syncInProgress = false
      ∧ (syncCursorHandler effId (fun _ => true) ⟨true, false, false⟩ idleGui).state.syncInProgress = false
      ∧ (syncEverythingHandler effId (fun _ => true) ⟨true, false, false⟩
          (tryFin faultingBody syncAllFinallyT ⟨busyGui, [], []⟩).1.gui).rejected = false) :=
  ⟨rfl, C3_guard_released_on_every_exit faultingBody ⟨busyGui, [], []⟩
    effId (fun _ => true) ⟨true, false, false⟩ idleGui rfl⟩

/-- C4: For every local-state snapshot (with the executed commands leaving the
two sync-config markers unchanged, so that every `os.path.exists` check sees
the snapshot's value), the steps executed for sync-everything are: the
Import-cursor-config step if the cursor-config marker exists, else the
Export-cursor-config step; then the Sync-machine-config step only if the
machine-sync-config marker exists; then the Sync-tool-config step only if the
tool-sync-config marker exists; then the Generate-summary step
unconditionally, in exactly that order — and the sync-single-config flow runs
exactly the cursor-config step. -/
theorem C4_sync_everything_plan (eff : Step → LocalState → LocalState)
    (o : Step → Bool) (s : LocalState)
    (hm : ∀ st ls, (eff st ls).machineSyncConfig = ls.machineSyncConfig)
    (ht : ∀ st ls, (eff st ls).toolSyncConfig = ls.toolSyncConfig) :
    (syncEverythingRun eff o s).executed = specPlanSyncEverything s
    ∧ (syncCursorRun eff o s).executed = specPlanSyncCursor s :=
  ⟨syncEverythingRun_executed_plan eff o s hm ht,
   syncCursorRun_executed_plan eff o s⟩

theorem C4_sync_everything_plan_witness :
    (∀ st ls, (effId st ls).machineSyncConfig = ls.machineSyncConfig)
    ∧ (∀ st ls, (effId st ls).toolSyncConfig = ls.toolSyncConfig)
    ∧ ((syncEverythingRun effId (fun _ => true) ⟨true, true, false⟩).executed
        = specPlanSyncEverything ⟨true, true, false⟩
      ∧ (syncCursorRun effId (fun _ => true) ⟨true, true, false⟩).executed
        = specPlanSyncCursor ⟨true, true, false⟩) :=
  ⟨fun _ _ => rfl, fun _ _ => rfl,
   C4_sync_everything_plan effId (fun _ => true) ⟨true, true, false⟩
     (fun _ _ => rfl) (fun _ _ => rfl)⟩

/-- C5: For every local-state snapshot (with the executed commands leaving the
two sync-config markers unchanged, so that every `os.path.exists` check sees
the snapshot's value), the steps executed for export-all are: the
Export-cursor-config step unconditionally; then the machine-sync-config
generation step only if the machine-sync-config marker is absent; then the
tool-sync-config generation step only if the tool-sync-config marker is
absent; then the Generate-summary step unconditionally, in exactly that
order. -/
theorem C5_export_all_plan (eff : Step → LocalState → LocalState)
    (o : Step → Bool) (s : LocalState)
    (hm : ∀ st ls, (eff st ls).machineSyncConfig = ls.machineSyncConfig)
    (ht : ∀ st ls, (eff st ls).toolSyncConfig = ls.toolSyncConfig) :
    (exportConfigRun eff o s).executed = specPlanExportAll s :=
  exportConfigRun_executed_plan eff o s hm ht

theorem C5_export_all_plan_witness :
    (∀ st ls, (effId st ls).machineSyncConfig = ls.machineSyncConfig)
    ∧ (∀ st ls, (effId st ls).toolSyncConfig = ls.toolSyncConfig)
    ∧ (exportConfigRun effId (fun _ => true) ⟨false, false, true⟩).executed
        = specPlanExportAll ⟨false, false, true⟩ :=
  ⟨fun _ _ => rfl, fun _ _ => rfl,
   C5_export_all_plan effId (fun _ => true) ⟨false, false, true⟩
     (fun _ _ => rfl) (fun _ _ => rfl)⟩

/-- C6 counterexample: the conditions are NOT evaluated at plan-construction
time against the submission snapshot — they are evaluated mid-run, after
earlier steps have run.  With the empty snapshot, if the cursor-export
command creates the machine-sync-config.json marker, the executed step list
differs from the one obtained when no command touches the markers, so the
step list is not a function of (action, snapshot) alone. -/
theorem C6_counterexample :
    (syncEverythingRun effExportCreatesMachineMarker (fun _ => true)
        ⟨false, false, false⟩).executed
      ≠ (syncEverythingRun effId (fun _ => true) ⟨false, false, false⟩).executed := by
  decide

/-- C6 amended: each condition is evaluated exactly once per run, but
immediately before its step against the local state as already modified by
the earlier steps of the same run (not at plan-construction time).  The
executed step list never depends on step outcomes, and whenever the executed
commands leave the two sync-config markers unchanged it is a deterministic
function of (action, snapshot) alone. -/
theorem C6_conditions_checked_mid_run (s : LocalState)
    (eff eff1 eff2 : Step → LocalState → LocalState) (o1 o2 : Step → Bool)
    (hm1 : ∀ st ls, (eff1 st ls).machineSyncConfig = ls.machineSyncConfig)
    (ht1 : ∀ st ls, (eff1 st ls).toolSyncConfig = ls.toolSyncConfig)
    (hm2 : ∀ st ls, (eff2 st ls).machineSyncConfig = ls.machineSyncConfig)
    (ht2 : ∀ st ls, (eff2 st ls).toolSyncConfig = ls.toolSyncConfig) :
    (syncEverythingRun eff o1 s).executed = (syncEverythingRun eff o2 s).executed
    ∧ (exportConfigRun eff o1 s).executed = (exportConfigRun eff o2 s).executed
    ∧ (syncEverythingRun eff1 o1 s).executed = (syncEverythingRun eff2 o2 s).executed
    ∧ (exportConfigRun eff1 o1 s).executed = (exportConfigRun eff2 o2 s).executed := by
  refine ⟨syncEverythingRun_executed_indep eff s o1 o2,
    exportConfigRun_executed_indep eff s o1 o2, ?_, ?_⟩
  · rw [syncEverythingRun_executed_plan eff1 o1 s hm1 ht1,
      syncEverythingRun_executed_plan eff2 o2 s hm2 ht2]
  · rw [exportConfigRun_executed_plan eff1 o1 s hm1 ht1,
      exportConfigRun_executed_plan eff2 o2 s hm2 ht2]

theorem C6_conditions_checked_mid_run_witness :
    (∀ st ls, (effId st ls).machineSyncConfig = ls.machineSyncConfig)
    ∧ (∀ st ls, (effId st ls).toolSyncConfig = ls.toolSyncConfig)
    ∧ ((syncEverythingRun effId (fun _ => true) ⟨true, false, true⟩).executed
        = (syncEverythingRun effId (fun _ => false) ⟨true, false, true⟩).executed
      ∧ (exportConfigRun effId (fun _ => true) ⟨true, false, true⟩).executed
        = (exportConfigRun effId (fun _ => false) ⟨true, false, true⟩).executed
      ∧ (syncEverythingRun effId (fun _ => true) ⟨true, false, true⟩).executed
        = (syncEverythingRun effId (fun _ => false) ⟨true, false, true⟩).executed
      ∧ (exportConfigRun effId (fun _ => true) ⟨true, false, true⟩).executed
        = (exportConfigRun effId (fun _ => false) ⟨true, false, true⟩).executed) :=
  ⟨fun _ _ => rfl, fun _ _ => rfl,
   C6_conditions_checked_mid_run ⟨true, false, true⟩ effId effId effId
     (fun _ => true) (fun _ => false)
     (fun _ _ => rfl) (fun _ _ => rfl) (fun _ _ => rfl) (fun _ _ => rfl)⟩

/-- C7 counterexample: the terminal aggregate result of a sync-everything run
does not carry the failed step names.  Two runs of the same plan in which
different steps fail (first the import step, then the summary step) produce
byte-for-byte identical handler results — same rejection flag, dialogs,
executed steps and final GUI state — while their failed-step-name lists
differ, so the terminal result cannot carry `failed_step_names`. -/
theorem C7_counterexample :
    syncEverythingHandler effId outcomeFailingImport ⟨true, false, false⟩ idleGui
      = syncEverythingHandler effId outcomeFailingSummary ⟨true, false, false⟩ idleGui
    ∧ failedStepNames
        (syncEverythingRun effId outcomeFailingImport ⟨true, false, false⟩)
        outcomeFailingImport
      ≠ failedStepNames
        (syncEverythingRun effId outcomeFailingSummary ⟨true, false, false⟩)
        outcomeFailingSummary := by
  decide

/-- C7 amended: only the test-integrations run carries the failed step names
in its terminal result — exactly the names of the integrations whose
health-check step failed, in step order, with the success dialog shown iff
every integration's step succeeded — while the sync-everything (and
export-all) terminal result carries only the aggregated boolean: one of two
fixed dialogs chosen by the AND across steps, with no step names. -/
theorem C7_failed_names_only_for_tests (eff : Step → LocalState → LocalState)
    (o : Step → Bool) (s : LocalState) (g : GuiState)
    (hg : g.syncInProgress = false) :
    testIntegrationsFailed o
      = (integrations.filter (fun p => !(o (testStep p)))).map Prod.fst
    ∧ (testIntegrationsDialog o
        = .info "Test Results" "All integrations working correctly!"
        ↔ ∀ p ∈ integrations, o (testStep p) = true)
    ∧ (syncEverythingHandler eff o s g).dialogs
        = [if (syncEverythingRun eff o s).success then
             Dialog.info "Success" "Everything synced successfully!"
           else Dialog.error "Error" "Some sync operations failed. Check the log for details."]
    ∧ (exportConfigHandler eff o s g).dialogs
        = [if (exportConfigRun eff o s).success then
             Dialog.info "Success" "Configuration exported successfully!"
           else Dialog.error "Error" "Some export operations failed. Check the log for details."] := by
  have h1 : testIntegrationsFailed o
      = (integrations.filter (fun p => !(o (testStep p)))).map Prod.fst := by
    rw [testIntegrationsFailed, testIntegrationsResults_eq, filter_map_comm]
    simp only [List.map_map]
    rfl
  have h2 : testIntegrationsFailed o = [] ↔ ∀ p ∈ integrations, o (testStep p) = true := by
    rw [h1]
    simp [List.filter_eq_nil_iff]
  refine ⟨h1, ?_, ?_, ?_⟩
  · rw [← h2]
    unfold testIntegrationsDialog
    split
    next hne => simp [hne]
    next hne =>
      simp only [ne_eq, not_not] at hne
      simp [hne]
  · simp [syncEverythingHandler, hg, tryFin, syncAllBody, syncAllFinallyT]
  · simp [exportConfigHandler, hg, tryFin, exportConfigBody, exportConfigFinallyT]

theorem C7_failed_names_only_for_tests_witness :
    idleGui.syncInProgress = false
    ∧ (testIntegrationsFailed (fun _ => true)
        = (integrations.filter (fun p => !((fun _ => true) (testStep p)))).map Prod.fst
      ∧ (testIntegrationsDialog (fun _ => true)
          = .info "Test Results" "All integrations working correctly!"
          ↔ ∀ p ∈ integrations, (fun _ => true) (testStep p) = true)
      ∧ (syncEverythingHandler effId (fun _ => true) ⟨true, false, false⟩ idleGui).dialogs
          = [if (syncEverythingRun effId (fun _ => true) ⟨true, false, false⟩).success then
               Dialog.info "Success" "Everything synced successfully!"
             else Dialog.error "Error" "Some sync operations failed. Check the log for details."]
      ∧ (exportConfigHandler effId (fun _ => true) ⟨true, false, false⟩ idleGui).dialogs
          = [if (exportConfigRun effId (fun _ => true) ⟨true, false, false⟩).success then
               Dialog.info "Success" "Configuration exported successfully!"
             else Dialog.error "Error" "Some export operations failed. Check the log for details."]) :=
  ⟨rfl, C7_failed_names_only_for_tests effId (fun _ => true) ⟨true, false, false⟩ idleGui rfl⟩

/-- C8 counterexample: partial output captured before a timeout is NOT
preserved.  `run_command`'s `TimeoutExpired` handler discards the output the
process produced before the timeout: the returned verdict and log are
byte-for-byte identical whether the timed-out process had produced output or
none at all, and the log consists of the running line and the timed-out line
only. -/
theorem C8_counterexample :
    runCommandSync sysTimesOutWithOutput "npm run sync-machines" "Sync machine configuration"
      = runCommandSync sysTimesOutSilent "npm run sync-machines" "Sync machine configuration"
    ∧ runCommandSync sysTimesOutWithOutput "npm run sync-machines" "Sync machine configuration"
      = (false, ["Running: Sync machine configuration",
                 "⏰ Sync machine configuration timed out"]) := by
  decide

/-- C8 amended: for every Step whose process does not exit within the Step's
timeout, the Command Runner returns succeeded = false with the distinctive
timed-out log line (any stdout/stderr captured before the timeout is
discarded, not preserved), and the Plan continues to its next Step — the
executed step list of a sync-everything run is the same whatever outcomes
`run_command` returns. -/
theorem C8_timeout_false_and_continue (system : SubprocessCall → ProcBehavior)
    (command description po pe : String)
    (h : system (syncGuiCall command) = .timesOut po pe) :
    runCommandSync system command description
      = (false, ["Running: " ++ description,
                 "⏰ " ++ description ++ " timed out"])
    ∧ ∀ (eff : Step → LocalState → LocalState) (s : LocalState)
        (sysA sysB : SubprocessCall → ProcBehavior),
        (syncEverythingRun eff (stepOutcomeSync sysA) s).executed
          = (syncEverythingRun eff (stepOutcomeSync sysB) s).executed := by
  constructor
  · simp [runCommandSync, runCommandSyncTry, subprocessRun, h]
  · intro eff s sysA sysB
    exact syncEverythingRun_executed_indep eff s _ _

theorem C8_timeout_false_and_continue_witness :
    sysTimesOutSilent (syncGuiCall "npm run sync-tools") = .timesOut "" ""
    ∧ (runCommandSync sysTimesOutSilent "npm run sync-tools" "Sync tool configuration"
        = (false, ["Running: " ++ "Sync tool configuration",
                   "⏰ " ++ "Sync tool configuration" ++ " timed out"])
      ∧ ∀ (eff : Step → LocalState → LocalState) (s : LocalState)
          (sysA sysB : SubprocessCall → ProcBehavior),
          (syncEverythingRun eff (stepOutcomeSync sysA) s).executed
            = (syncEverythingRun eff (stepOutcomeSync sysB) s).executed) :=
  ⟨rfl, C8_timeout_false_and_continue sysTimesOutSilent
    "npm run sync-tools" "Sync tool configuration" "" "" rfl⟩

/-- C9: `run_command` always returns a boolean and never propagates an
exception: its result is true exactly when the process exited with code zero
within the timeout; a non-zero exit, a timeout, and any other exception
raised while launching or waiting are each converted to a false return (the
function is total over every possible process behaviour, in both the
sync_gui and the simple_gui variant). -/
theorem C9_run_command_never_raises (system : SubprocessCall → ProcBehavior)
    (command description : String) :
    ((runCommandSync system command description).1 = true
      ↔ ∃ out err, system (syncGuiCall command) = .exits 0 out err)
    ∧ ((runCommandSimple system command description).1 = true
      ↔ ∃ out err, system (simpleGuiCall command) = .exits 0 out err) := by
  constructor
  · unfold runCommandSync runCommandSyncTry subprocessRun
    cases hb : system (syncGuiCall command) with
    | exits c out err =>
      by_cases hc : c = 0 <;> simp [hc]
    | timesOut po pe => simp
    | raises m => simp
  · unfold runCommandSimple runCommandSimpleTry subprocessRun
    cases hb : system (simpleGuiCall command) with
    | exits c out err =>
      by_cases hc : c = 0 <;> simp [hc]
    | timesOut po pe => simp
    | raises m => simp

/-- C10: every step run through sync_gui's `run_command` is passed to
`subprocess.run` with the one fixed timeout of 300 seconds, and every step
run through simple_gui's `run_command` with the one fixed timeout of 60
seconds, regardless of the step's name or invocation; moreover each
`run_command` consults the system at that single call only, so two systems
agreeing on that call produce identical results. -/
theorem C10_fixed_timeouts (command description : String)
    (sysA sysB : SubprocessCall → ProcBehavior)
    (h : sysA (syncGuiCall command) = sysB (syncGuiCall command))
    (h2 : sysA (simpleGuiCall command) = sysB (simpleGuiCall command)) :
    (syncGuiCall command).timeout = 300
    ∧ (simpleGuiCall command).timeout = 60
    ∧ runCommandSync sysA command description = runCommandSync sysB command description
    ∧ runCommandSimple sysA command description = runCommandSimple sysB command description := by
  refine ⟨rfl, rfl, ?_, ?_⟩
  · simp [runCommandSync, runCommandSyncTry, subprocessRun, h]
  · simp [runCommandSimple, runCommandSimpleTry, subprocessRun, h2]

theorem C10_fixed_timeouts_witness :
    sysTimesOutSilent (syncGuiCall "npm run generate-summary")
      = sysTimesOutSilent (syncGuiCall "npm run generate-summary")
    ∧ sysTimesOutSilent (simpleGuiCall "npm run generate-summary")
      = sysTimesOutSilent (simpleGuiCall "npm run generate-summary")
    ∧ ((syncGuiCall "npm run generate-summary").timeout = 300
      ∧ (simpleGuiCall "npm run generate-summary").timeout = 60
      ∧ runCommandSync sysTimesOutSilent "npm run generate-summary" "Generate project summary"
          = runCommandSync sysTimesOutSilent "npm run generate-summary" "Generate project summary"
      ∧ runCommandSimple sysTimesOutSilent "npm run generate-summary" "Generate project summary"
          = runCommandSimple sysTimesOutSilent "npm run generate-summary" "Generate project summary") :=
  ⟨rfl, rfl, C10_fixed_timeouts "npm run generate-summary" "Generate project summary"
    sysTimesOutSilent sysTimesOutSilent rfl rfl⟩
